import Mathlib

set_option maxHeartbeats 1000000

/-!
Shallow embedding of the voice-client repository (src/client.py), covering
the adaptive buffer manager, the bounded capture queue of the audio sender,
the device monitor, the inbound audio sink, and the supervisor
connect/authenticate/stream/reconnect loop of `connect_and_run`.
-/

/-- Configuration constant `BLOCK_SIZE` (client.py line 47): default capture
block size in samples. -/
def BLOCK_SIZE : Int := 480

/-- Configuration constant `ADAPTIVE_BUFFER_MIN` (client.py line 69). -/
def ADAPTIVE_BUFFER_MIN : Int := 480

/-- Configuration constant `ADAPTIVE_BUFFER_MAX` (client.py line 70). -/
def ADAPTIVE_BUFFER_MAX : Int := 1920

/-- Configuration constant `MAX_RECONNECT_ATTEMPTS` (client.py line 54). -/
def MAX_RECONNECT_ATTEMPTS : Nat := 10

/-- Configuration constant `RECONNECT_BASE_DELAY` (client.py line 55), seconds. -/
def RECONNECT_BASE_DELAY : Nat := 1

/-- Configuration constant `RECONNECT_MAX_DELAY` (client.py line 56), seconds. -/
def RECONNECT_MAX_DELAY : Nat := 60

/-- Timeout in seconds of the single `ws.recv()` awaited for the
authentication response (`asyncio.wait_for(ws.recv(), 10)`, client.py
line 588). -/
def AUTH_TIMEOUT_SECONDS : Nat := 10

/-- State of `AdaptiveBufferManager` (client.py lines 141-165).
Latency samples are real (Python float) millisecond durations, embedded
as rationals; `current_size` is a Python int, embedded as `Int`. -/
structure AdaptiveBufferManager where
  current_size : Int
  latency_samples : List Rat
  max_samples : Nat
deriving DecidableEq, Repr

/-- The state built by `AdaptiveBufferManager.__init__` (client.py
lines 144-147): `current_size = BLOCK_SIZE`, empty sample list,
`max_samples = 10`. -/
def AdaptiveBufferManager.init : AdaptiveBufferManager :=
  { current_size := BLOCK_SIZE, latency_samples := [], max_samples := 10 }

/-- Embedding of `AdaptiveBufferManager.update_latency` (client.py
lines 149-162): append the new sample, `pop(0)` when the list exceeds
`max_samples`, average, then adjust `current_size` by 240 clamped to
the configured bounds when the average leaves the 50-200 ms band. -/
def AdaptiveBufferManager.update_latency (m : AdaptiveBufferManager)
    (latency_ms : Rat) : AdaptiveBufferManager :=
  let samples0 := m.latency_samples ++ [latency_ms]
  let samples := if m.max_samples < samples0.length then samples0.tail else samples0
  let avg_latency := samples.sum / (samples.length : Rat)
  let newSize :=
    if 200 < avg_latency then min ADAPTIVE_BUFFER_MAX (m.current_size + 240)
    else if avg_latency < 50 then max ADAPTIVE_BUFFER_MIN (m.current_size - 240)
    else m.current_size
  { m with latency_samples := samples, current_size := newSize }

/-- Embedding of `AdaptiveBufferManager.get_buffer_size` (client.py
lines 164-165). -/
def AdaptiveBufferManager.get_buffer_size (m : AdaptiveBufferManager) : Int :=
  m.current_size

/-- Folding a whole sequence of latency samples through
`update_latency`, starting from the freshly constructed manager. -/
def runUpdates (samples : List Rat) : AdaptiveBufferManager :=
  samples.foldl AdaptiveBufferManager.update_latency AdaptiveBufferManager.init

/-- A manager state reachable from the initial state by some sequence of
latency updates. -/
def ReachableABM (m : AdaptiveBufferManager) : Prop :=
  ∃ samples : List Rat, runUpdates samples = m

/-- The last `n` elements of a list (the suffix kept by the sliding
sample window). -/
def lastN (n : Nat) (l : List Rat) : List Rat :=
  l.drop (l.length - n)

/-- State of `AudioSender` (client.py lines 464-546) relevant to the
outbound capture queue: the bounded `asyncio.Queue` (front of the list
is the oldest, next-to-be-dequeued element), its `maxsize`, the
`running` flag, and the owned `AdaptiveBufferManager`. The websocket
and event-loop handles, the stream handle and the `AudioProcessor` are
external resources with no queue-visible state and are not modelled.
`α` is the type of a queued frame (`bytes` in the source). -/
structure AudioSender (α : Type) where
  maxsize : Nat
  queue : List α
  running : Bool
  buffer_manager : AdaptiveBufferManager
deriving DecidableEq, Repr

/-- The state built by `AudioSender.__init__` (client.py lines 465-473):
`asyncio.Queue(maxsize=25)`, `running = True`, a fresh
`AdaptiveBufferManager`. -/
def AudioSender.init (α : Type) : AudioSender α :=
  { maxsize := 25, queue := [], running := true,
    buffer_manager := AdaptiveBufferManager.init }

/-- Embedding of `AudioSender._put_nowait` (client.py lines 485-491):
return unchanged when not running; otherwise `queue.put_nowait(data)`,
and the `asyncio.queues.QueueFull` raised on a full queue is swallowed
(`pass`), discarding `data`. -/
def AudioSender.put_nowait (s : AudioSender α) (data : α) : AudioSender α :=
  if s.running = false then s
  else if s.queue.length < s.maxsize then { s with queue := s.queue ++ [data] }
  else s

/-- Pushing a whole list of captured frames in order through
`put_nowait`, with no consumer dequeue in between (the scenario of the
spec: producer faster than consumer). -/
def pushAll (s : AudioSender α) (frames : List α) : AudioSender α :=
  frames.foldl AudioSender.put_nowait s

/-- An `AudioSender` over `Nat` frames with the queue already holding
its configured capacity of 25 frames, used to instantiate the
full-queue behaviour at a concrete state. -/
def fullSender : AudioSender Nat :=
  { maxsize := 25, queue := List.replicate 25 0, running := true,
    buffer_manager := AdaptiveBufferManager.init }

/-- An `AudioSender` with an empty queue of the given capacity, used for
the capacity-5 scenario of the spec (the code itself always constructs
capacity 25; `asyncio.Queue` is parametric in `maxsize`). -/
def emptySender (α : Type) (cap : Nat) : AudioSender α :=
  { maxsize := cap, queue := [], running := true,
    buffer_manager := AdaptiveBufferManager.init }

/-- Result of the authentication exchange, as classified by client.py
lines 587-597: a reply whose `type` field is `"error"` is a rejection,
any other reply is acceptance, and `asyncio.TimeoutError` on the single
`recv` is a timeout. -/
inductive AuthResult where
  | accepted
  | rejected
  | timedOut
deriving DecidableEq, Repr

/-- Embedding of the authentication wait (client.py lines 585-597):
after sending the auth frame the client awaits exactly one `ws.recv()`
(with timeout `AUTH_TIMEOUT_SECONDS`) and classifies the reply by
whether its `type` field equals `"error"`. The inbound stream is a list
of frames, each represented by its is-error flag; an empty stream means
no frame arrived within the timeout. The function returns the
classification together with the frames left unread. -/
def authPhase : List Bool → AuthResult × List Bool
  | [] => (AuthResult.timedOut, [])
  | isErr :: rest =>
    (if isErr then AuthResult.rejected else AuthResult.accepted, rest)

/-- Outcome of one iteration of the `while reconnect_attempt <
MAX_RECONNECT_ATTEMPTS` loop of `connect_and_run` (client.py
lines 567-706), as determined by the environment (network, server,
audio devices). -/
inductive IterOutcome where
  | connectFail
    -- `websockets.connect` (or anything before the auth reply) raises:
    -- caught at line 703, `reconnect_attempt += 1`.
  | authReject
    -- the auth reply has `type == "error"` (line 590): status, token
    -- cleared, `return`.
  | authTimeout
    -- no auth reply within 10 s (line 595): `raise`, caught at
    -- line 703, `reconnect_attempt += 1`.
  | streamClosed
    -- auth accepted, counter reset (line 600), streaming runs, then the
    -- connection closes or errors (lines 699-706): `reconnect_attempt += 1`.
  | cableNotFound
    -- auth accepted, counter reset, but the virtual output cable is
    -- missing (lines 617-624): status, sleep 5, `continue` (no
    -- increment of the counter).
deriving DecidableEq, Repr

/-- Supervisor-visible state of `connect_and_run` (client.py
lines 551-752): the reconnect counter, whether `auth.token` is still
stored (cleared only by `auth.clear_token()` at line 592), how many
times the fatal auth-rejection path has executed, whether the terminal
"Failed to reconnect" status of line 751 has been emitted, the backoff
delays slept so far (line 572, in order), and how many times the
Streaming phase was entered (line 600 onwards). -/
structure SupState where
  reconnect_attempt : Nat
  token : Bool
  authRejectStops : Nat
  terminal : Bool
  slept : List Nat
  streamingEntries : Nat
deriving DecidableEq, Repr

/-- The reconnect delay computed at the top of each loop iteration
(client.py line 569): `min(RECONNECT_BASE_DELAY * (2 ** reconnect_attempt),
RECONNECT_MAX_DELAY)`. -/
def reconnectDelay (n : Nat) : Nat :=
  min (RECONNECT_BASE_DELAY * 2 ^ n) RECONNECT_MAX_DELAY

/-- One iteration of the body of the reconnect loop (client.py
lines 568-748): compute the delay, sleep it when `reconnect_attempt > 0`
(lines 570-572), then proceed according to the environment's outcome.
Returns the updated state and whether the loop continues (`false`
exactly on the `return` of the fatal auth-rejection path, line 593). -/
def stepIter (st : SupState) (o : IterOutcome) : SupState × Bool :=
  let delay := reconnectDelay st.reconnect_attempt
  let st₁ := if 0 < st.reconnect_attempt
             then { st with slept := st.slept ++ [delay] } else st
  match o with
  | IterOutcome.connectFail =>
    ({ st₁ with reconnect_attempt := st₁.reconnect_attempt + 1 }, true)
  | IterOutcome.authReject =>
    ({ st₁ with token := false,
                authRejectStops := st₁.authRejectStops + 1 }, false)
  | IterOutcome.authTimeout =>
    ({ st₁ with reconnect_attempt := st₁.reconnect_attempt + 1 }, true)
  | IterOutcome.streamClosed =>
    let st₂ := { st₁ with reconnect_attempt := 0,
                          streamingEntries := st₁.streamingEntries + 1 }
    ({ st₂ with reconnect_attempt := st₂.reconnect_attempt + 1 }, true)
  | IterOutcome.cableNotFound =>
    let st₂ := { st₁ with reconnect_attempt := 0,
                          streamingEntries := st₁.streamingEntries + 1 }
    (st₂, true)

/-- The reconnect loop of `connect_and_run` driven by a finite script of
iteration outcomes: while `reconnect_attempt < MAX_RECONNECT_ATTEMPTS`
run one iteration per outcome; when the guard fails, emit the terminal
"Failed to reconnect after 10 attempts" status (client.py
lines 750-752). If the script runs out while the loop could still
continue, the current (still running) state is returned. -/
def connect_and_run : SupState → List IterOutcome → SupState
  | st, [] =>
    if MAX_RECONNECT_ATTEMPTS ≤ st.reconnect_attempt
    then { st with terminal := true } else st
  | st, o :: rest =>
    if MAX_RECONNECT_ATTEMPTS ≤ st.reconnect_attempt
    then { st with terminal := true }
    else
      let r := stepIter st o
      if r.2 then connect_and_run r.1 rest else r.1

/-- The supervisor state at the start of `connect_and_run` (client.py
lines 551-557): counter 0, token present, nothing emitted or slept. -/
def SupState.init : SupState :=
  { reconnect_attempt := 0, token := true, authRejectStops := 0,
    terminal := false, slept := [], streamingEntries := 0 }

/-- Per-frame environment flags for the inbound loop: whether the write
to the output device (`audio_out_cable.write`, client.py line 682) and
the append to the recording file (`wav_file.writeframes`, line 688)
raise. -/
structure WriteFlags where
  deviceWriteFails : Bool
  recordWriteFails : Bool
deriving DecidableEq, Repr

/-- State of the inbound audio sink during streaming: frames
successfully written to the output device, frames successfully appended
to the recording file, the two error-log counters (client.py lines 684
and 690), and the number of inbound binary frames fully processed. -/
structure SinkState (β : Type) where
  played : List β
  recorded : List β
  deviceErrors : Nat
  recordErrors : Nat
  processed : Nat
deriving DecidableEq, Repr

/-- Embedding of the binary-frame branch of the inbound message loop
(client.py lines 677-690): the device write and the recording write sit
in separate `try`/`except` blocks, each failure only logged, and the
iteration always completes. -/
def handleBinaryFrame (st : SinkState β) (frame : β) (w : WriteFlags) :
    SinkState β :=
  let st₁ := if w.deviceWriteFails
             then { st with deviceErrors := st.deviceErrors + 1 }
             else { st with played := st.played ++ [frame] }
  let st₂ := if w.recordWriteFails
             then { st₁ with recordErrors := st₁.recordErrors + 1 }
             else { st₁ with recorded := st₁.recorded ++ [frame] }
  { st₂ with processed := st₂.processed + 1 }

/-- The inbound loop (`async for msg in ws`, client.py line 670) over a
finite arrival sequence of binary frames, each paired with its
environment write flags. -/
def inboundLoop (st : SinkState β) (msgs : List (β × WriteFlags)) :
    SinkState β :=
  msgs.foldl (fun s p => handleBinaryFrame s p.1 p.2) st

/-- The sink state at the start of a session (fresh recording file, no
errors). -/
def SinkState.init (β : Type) : SinkState β :=
  { played := [], recorded := [], deviceErrors := 0, recordErrors := 0,
    processed := 0 }

/-- A registered device-change callback (client.py lines 183-184): an
identifier for counting invocations, and whether invoking it raises
(the exception is caught and logged at lines 193-196). -/
structure DevCallback where
  id : Nat
  raises : Bool
deriving DecidableEq, Repr

/-- State of `AudioDeviceMonitor` (client.py lines 170-196): the device
name snapshot `last_devices` and the registered callbacks. -/
structure AudioDeviceMonitor where
  last_devices : List String
  callbacks : List DevCallback
deriving DecidableEq, Repr

/-- The `for callback in self.callbacks` loop of `check_devices`
(client.py lines 192-196): every callback is invoked in registration
order; a raising callback is caught by the `except` and logged, so the
loop continues with the remaining callbacks. Returns the identifiers of
the callbacks invoked, in invocation order. -/
def runCallbacks : List DevCallback → List Nat
  | [] => []
  | c :: rest => c.id :: runCallbacks rest

/-- Embedding of `AudioDeviceMonitor.check_devices` (client.py
lines 186-196) applied to the freshly enumerated device-name list
`current`: when it differs from the snapshot, replace the snapshot and
invoke every registered callback; otherwise do nothing. Returns the
updated monitor and the identifiers of the callbacks invoked in this
poll. -/
def check_devices (m : AudioDeviceMonitor) (current : List String) :
    AudioDeviceMonitor × List Nat :=
  if current ≠ m.last_devices
  then ({ m with last_devices := current }, runCallbacks m.callbacks)
  else (m, [])

/-- A supervisor state whose reconnect counter has reached the maximum
attempt count. -/
def supAtMax : SupState :=
  { reconnect_attempt := 10, token := true, authRejectStops := 0,
    terminal := false, slept := [], streamingEntries := 0 }

/-- A supervisor state about to run its first reconnect attempt
(counter 1). -/
def supAtOne : SupState :=
  { reconnect_attempt := 1, token := true, authRejectStops := 0,
    terminal := false, slept := [], streamingEntries := 0 }

/-- The monitor of the spec scenario: snapshot `["Mic A"]`, with two
registered callbacks, the first of which raises when invoked. -/
def monMicA : AudioDeviceMonitor :=
  { last_devices := ["Mic A"],
    callbacks := [{ id := 0, raises := true }, { id := 1, raises := false }] }

/-- The size grid actually visited by the adaptive buffer: starting from
`BLOCK_SIZE = 480` and moving in steps of 240 clamped to
`[ADAPTIVE_BUFFER_MIN, ADAPTIVE_BUFFER_MAX]`, only these seven values
occur. -/
def SizeOnGrid (s : Int) : Prop :=
  s = 480 ∨ s = 720 ∨ s = 960 ∨ s = 1200 ∨ s = 1440 ∨ s = 1680 ∨ s = 1920

/-! Helper lemmas. -/

theorem update_latency_grid (m : AdaptiveBufferManager) (x : Rat)
    (h : SizeOnGrid m.current_size) :
    SizeOnGrid (m.update_latency x).current_size ∧
    ((m.update_latency x).current_size - m.current_size = 0 ∨
     (m.update_latency x).current_size - m.current_size = 240 ∨
     (m.update_latency x).current_size - m.current_size = -240) := by
  unfold AdaptiveBufferManager.update_latency SizeOnGrid at *
  dsimp only
  split_ifs <;> simp only [ADAPTIVE_BUFFER_MIN, ADAPTIVE_BUFFER_MAX] at * <;> omega

theorem foldl_grid (samples : List Rat) :
    ∀ m : AdaptiveBufferManager, SizeOnGrid m.current_size →
      SizeOnGrid ((samples.foldl AdaptiveBufferManager.update_latency m).current_size) := by
  induction samples with
  | nil => intro m h; simpa using h
  | cons s rest ih =>
    intro m h
    exact ih _ (update_latency_grid m s h).1

theorem runUpdates_grid (samples : List Rat) :
    SizeOnGrid (runUpdates samples).current_size :=
  foldl_grid samples AdaptiveBufferManager.init (Or.inl rfl)

theorem foldl_max_samples (samples : List Rat) :
    ∀ m : AdaptiveBufferManager,
      ((samples.foldl AdaptiveBufferManager.update_latency m).max_samples) = m.max_samples := by
  induction samples with
  | nil => intro m; rfl
  | cons s rest ih => intro m; exact ih _

theorem update_samples_eq (m : AdaptiveBufferManager) (x : Rat)
    (hm : m.max_samples = 10) :
    (m.update_latency x).latency_samples =
      if m.latency_samples.length < 10 then m.latency_samples ++ [x]
      else (m.latency_samples ++ [x]).tail := by
  unfold AdaptiveBufferManager.update_latency
  dsimp only
  rw [hm]
  rcases Nat.lt_or_ge m.latency_samples.length 10 with h | h
  · rw [if_neg (show ¬ 10 < (m.latency_samples ++ [x]).length by simp; omega),
        if_pos h]
  · rw [if_pos (show 10 < (m.latency_samples ++ [x]).length by simp; omega),
        if_neg (by omega)]

theorem runUpdates_samples (history : List Rat) :
    (runUpdates history).latency_samples = lastN 10 history := by
  induction history using List.reverseRecOn with
  | nil => rfl
  | append_singleton l a ih =>
    have hfold : runUpdates (l ++ [a]) = (runUpdates l).update_latency a := by
      unfold runUpdates
      rw [List.foldl_append]
      rfl
    have hmax : (runUpdates l).max_samples = 10 :=
      foldl_max_samples l AdaptiveBufferManager.init
    rw [hfold, update_samples_eq _ _ hmax, ih]
    rcases Nat.lt_or_ge l.length 10 with h | h
    · have h1 : lastN 10 l = l := by
        unfold lastN
        rw [Nat.sub_eq_zero_of_le (by omega), List.drop_zero]
      have h2 : lastN 10 (l ++ [a]) = l ++ [a] := by
        unfold lastN
        rw [Nat.sub_eq_zero_of_le (by simp; omega), List.drop_zero]
      rw [if_pos (by rw [h1]; omega), h1, h2]
    · have hlen : (lastN 10 l).length = 10 := by
        unfold lastN; rw [List.length_drop]; omega
      rw [if_neg (by omega)]
      have hne : lastN 10 l ≠ [] := by
        intro hc; rw [hc] at hlen; simp at hlen
      obtain ⟨y, ys, hys⟩ := List.exists_cons_of_ne_nil hne
      have hys' : l.drop (l.length - 10) = y :: ys := hys
      unfold lastN
      have hlen2 : (l ++ [a]).length - 10 = (l.length - 10) + 1 := by simp; omega
      rw [hlen2, List.drop_append_of_le_length (by omega), ← List.tail_drop, hys']
      rfl

theorem update_size_eq (m : AdaptiveBufferManager) (x : Rat) :
    (m.update_latency x).current_size =
      (if 200 < (m.update_latency x).latency_samples.sum /
            ((m.update_latency x).latency_samples.length : Rat)
       then min ADAPTIVE_BUFFER_MAX (m.current_size + 240)
       else if (m.update_latency x).latency_samples.sum /
            ((m.update_latency x).latency_samples.length : Rat) < 50
       then max ADAPTIVE_BUFFER_MIN (m.current_size - 240)
       else m.current_size) := rfl

theorem runCallbacks_eq_map (l : List DevCallback) :
    runCallbacks l = l.map DevCallback.id := by
  induction l with
  | nil => rfl
  | cons c rest ih => simp [runCallbacks, ih]

theorem inboundLoop_processed (msgs : List (β × WriteFlags)) :
    ∀ st : SinkState β,
      (inboundLoop st msgs).processed = st.processed + msgs.length := by
  induction msgs with
  | nil => intro st; simp [inboundLoop]
  | cons p rest ih =>
    intro st
    have h1 : (handleBinaryFrame st p.1 p.2).processed = st.processed + 1 := by
      unfold handleBinaryFrame
      split_ifs <;> rfl
    calc (inboundLoop st (p :: rest)).processed
        = (inboundLoop (handleBinaryFrame st p.1 p.2) rest).processed := rfl
      _ = (handleBinaryFrame st p.1 p.2).processed + rest.length := ih _
      _ = st.processed + 1 + rest.length := by rw [h1]
      _ = st.processed + (p :: rest).length := by simp; omega

theorem stepIter_slept_pos (st : SupState) (o : IterOutcome)
    (h : 0 < st.reconnect_attempt) :
    (stepIter st o).1.slept = st.slept ++ [reconnectDelay st.reconnect_attempt] := by
  cases o <;> simp [stepIter, h]

theorem stepIter_authTimeout_token (st : SupState) :
    (stepIter st IterOutcome.authTimeout).1.token = st.token := by
  simp only [stepIter]
  split_ifs <;> rfl

theorem stepIter_authTimeout_attempt (st : SupState) :
    (stepIter st IterOutcome.authTimeout).1.reconnect_attempt
      = st.reconnect_attempt + 1 := by
  simp only [stepIter]
  split_ifs <;> rfl

theorem stepIter_authTimeout_continues (st : SupState) :
    (stepIter st IterOutcome.authTimeout).2 = true := by
  simp only [stepIter]

theorem stepIter_authReject (st : SupState) :
    (stepIter st IterOutcome.authReject).2 = false ∧
    (stepIter st IterOutcome.authReject).1.token = false ∧
    (stepIter st IterOutcome.authReject).1.authRejectStops = st.authRejectStops + 1 ∧
    (stepIter st IterOutcome.authReject).1.reconnect_attempt = st.reconnect_attempt ∧
    (stepIter st IterOutcome.authReject).1.terminal = st.terminal := by
  refine ⟨?_, ?_, ?_, ?_, ?_⟩ <;> simp only [stepIter] <;>
    all_goals split_ifs <;> rfl

/-! Claim theorems. -/

/-- C1: for every push of a frame onto the outbound capture queue of an
`AudioSender` with its configured capacity of 25 slots, if the queue
already holds 25 frames the push leaves the sender (queue included)
unchanged — the pushed, newest frame is discarded, without blocking or
raising (`_put_nowait` is total) — and the queue length never exceeds
the capacity. -/
theorem put_nowait_full_drops_newest {α : Type} (s : AudioSender α) (a : α)
    (hcap : s.maxsize = 25) :
    (s.queue.length = 25 → s.put_nowait a = s) ∧
    (s.queue.length ≤ 25 → (s.put_nowait a).queue.length ≤ 25) := by
  unfold AudioSender.put_nowait
  constructor
  · intro hfull
    split_ifs with h1 h2
    · rfl
    · exfalso; omega
    · rfl
  · intro hle
    split_ifs with h1 h2
    · exact hle
    · simp; omega
    · exact hle

theorem put_nowait_full_drops_newest_witness :
    fullSender.put_nowait 7 = fullSender ∧
    (fullSender.put_nowait 7).queue.length ≤ 25 :=
  ⟨(put_nowait_full_drops_newest fullSender 7 rfl).1 (by decide),
   (put_nowait_full_drops_newest fullSender 7 rfl).2 (by decide)⟩

/-- C2, counterexample: with a capacity-5 queue and no consumer dequeues,
pushing the frames 1,...,8 in order does NOT leave the queue holding the
five most-recently-pushed frames 4,...,8: `_put_nowait` drops the newest
frame on a full queue, not the oldest. -/
theorem pushAll_keeps_oldest_counterexample :
    (pushAll (emptySender Nat 5) [1, 2, 3, 4, 5, 6, 7, 8]).queue ≠ [4, 5, 6, 7, 8] := by
  decide

/-- C2, amended: with an outbound queue of capacity 5 and no consumer
dequeues, after pushing 8 frames in order the queue contains exactly the
5 earliest-pushed frames (frames 1 through 5); the newest 3 of the 8 are
the ones dropped, not the oldest. -/
theorem pushAll_capacity_five_keeps_first_five {α : Type} (frames : List α)
    (h : frames.length = 8) :
    (pushAll (emptySender α 5) frames).queue = frames.take 5 := by
  match frames, h with
  | [a, b, c, d, e, f, g, a8], _ =>
    simp [pushAll, emptySender, AudioSender.put_nowait]

theorem pushAll_capacity_five_keeps_first_five_witness :
    (pushAll (emptySender Nat 5) [1, 2, 3, 4, 5, 6, 7, 8]).queue
      = [1, 2, 3, 4, 5, 6, 7, 8].take 5 :=
  pushAll_capacity_five_keeps_first_five [1, 2, 3, 4, 5, 6, 7, 8] rfl

/-- C3: for every sequence of latency samples fed to
`AdaptiveBufferManager.update_latency` (every reachable manager state),
the buffer size after each further update stays within
`[ADAPTIVE_BUFFER_MIN, ADAPTIVE_BUFFER_MAX] = [480, 1920]`, and each
update changes it by exactly 0 or exactly one fixed step of 240 samples
(clamping at the bounds included). -/
theorem buffer_size_bounded_and_steps (m : AdaptiveBufferManager)
    (h : ReachableABM m) (x : Rat) :
    (ADAPTIVE_BUFFER_MIN ≤ (m.update_latency x).current_size ∧
     (m.update_latency x).current_size ≤ ADAPTIVE_BUFFER_MAX) ∧
    ((m.update_latency x).current_size - m.current_size = 0 ∨
     (m.update_latency x).current_size - m.current_size = 240 ∨
     (m.update_latency x).current_size - m.current_size = -240) := by
  obtain ⟨samples, rfl⟩ := h
  have hg := runUpdates_grid samples
  have hstep := update_latency_grid (runUpdates samples) x hg
  obtain ⟨hg', hd⟩ := hstep
  refine ⟨?_, hd⟩
  unfold SizeOnGrid at hg'
  simp only [ADAPTIVE_BUFFER_MIN, ADAPTIVE_BUFFER_MAX]
  omega

theorem buffer_size_bounded_and_steps_witness :
    (ADAPTIVE_BUFFER_MIN ≤ (AdaptiveBufferManager.init.update_latency 0).current_size ∧
     (AdaptiveBufferManager.init.update_latency 0).current_size ≤ ADAPTIVE_BUFFER_MAX) ∧
    ((AdaptiveBufferManager.init.update_latency 0).current_size -
       AdaptiveBufferManager.init.current_size = 0 ∨
     (AdaptiveBufferManager.init.update_latency 0).current_size -
       AdaptiveBufferManager.init.current_size = 240 ∨
     (AdaptiveBufferManager.init.update_latency 0).current_size -
       AdaptiveBufferManager.init.current_size = -240) :=
  buffer_size_bounded_and_steps AdaptiveBufferManager.init ⟨[], rfl⟩ 0

/-- C4: after feeding a whole history of samples, one further call of
`update_latency` with sample `x` keeps exactly the most recent
`min(n, 10)` samples of the full history (new sample included) as its
window, the smoothed estimate is the arithmetic mean of that window, and
the new buffer size is: increased by the fixed step clamped to
`ADAPTIVE_BUFFER_MAX` when the mean exceeds 200 ms, decreased by the same
step clamped to `ADAPTIVE_BUFFER_MIN` when the mean is below 50 ms, and
unchanged in the 50-200 ms band. -/
theorem update_latency_mean_window_thresholds (history : List Rat) (x : Rat) :
    ((runUpdates history).update_latency x).latency_samples
        = lastN 10 (history ++ [x]) ∧
    (lastN 10 (history ++ [x])).length = min (history.length + 1) 10 ∧
    ((runUpdates history).update_latency x).current_size =
      (if 200 < (lastN 10 (history ++ [x])).sum /
            ((lastN 10 (history ++ [x])).length : Rat)
       then min ADAPTIVE_BUFFER_MAX ((runUpdates history).current_size + 240)
       else if (lastN 10 (history ++ [x])).sum /
            ((lastN 10 (history ++ [x])).length : Rat) < 50
       then max ADAPTIVE_BUFFER_MIN ((runUpdates history).current_size - 240)
       else (runUpdates history).current_size) := by
  have hfold : (runUpdates history).update_latency x = runUpdates (history ++ [x]) := by
    unfold runUpdates
    rw [List.foldl_append]
    rfl
  have hs : ((runUpdates history).update_latency x).latency_samples
      = lastN 10 (history ++ [x]) := by
    rw [hfold, runUpdates_samples]
  refine ⟨hs, ?_, ?_⟩
  · unfold lastN
    rw [List.length_drop]
    simp
    omega
  · rw [update_size_eq, hs]

/-- C10: before any latency sample has been observed,
`AdaptiveBufferManager.get_buffer_size()` returns exactly 480, which is
both the minimum bound `ADAPTIVE_BUFFER_MIN` and the default capture
block size `BLOCK_SIZE`. -/
theorem initial_buffer_size_is_min :
    (AdaptiveBufferManager.init.get_buffer_size = 480 ∧
     (runUpdates []).get_buffer_size = 480) ∧
    AdaptiveBufferManager.init.get_buffer_size = ADAPTIVE_BUFFER_MIN ∧
    AdaptiveBufferManager.init.get_buffer_size = BLOCK_SIZE :=
  ⟨⟨rfl, rfl⟩, rfl, rfl⟩

/-- C5: the reconnect delay of `connect_and_run` at attempt index `n` is
`min(RECONNECT_BASE_DELAY * 2^n, RECONNECT_MAX_DELAY) = min(2^n, 60)`
seconds, and every loop iteration entered with a positive attempt
counter sleeps exactly that delay; a successful entry into Streaming
resets the counter to 0 (so it is 0 after an entry whose session merely
continues, and 1 after the disconnect that ends it); and once the
counter has reached `MAX_RECONNECT_ATTEMPTS = 10` the supervisor stops
retrying — whatever further outcomes the environment would offer — and
surfaces the terminal failure status. -/
theorem reconnect_backoff_policy (n : Nat) (st₁ st₂ st₃ : SupState)
    (os : List IterOutcome) (o : IterOutcome)
    (hmax : MAX_RECONNECT_ATTEMPTS ≤ st₁.reconnect_attempt)
    (hpos : 0 < st₂.reconnect_attempt) :
    reconnectDelay n = min (2 ^ n) 60 ∧
    (stepIter st₂ o).1.slept = st₂.slept ++ [reconnectDelay st₂.reconnect_attempt] ∧
    (stepIter st₃ IterOutcome.streamClosed).1.reconnect_attempt = 1 ∧
    (stepIter st₃ IterOutcome.cableNotFound).1.reconnect_attempt = 0 ∧
    (stepIter st₃ IterOutcome.streamClosed).1.streamingEntries
      = st₃.streamingEntries + 1 ∧
    connect_and_run st₁ os = { st₁ with terminal := true } := by
  refine ⟨?_, stepIter_slept_pos st₂ o hpos, ?_, ?_, ?_, ?_⟩
  · unfold reconnectDelay RECONNECT_BASE_DELAY RECONNECT_MAX_DELAY
    simp
  · simp [stepIter]
  · simp [stepIter]
  · simp [stepIter]
    split_ifs <;> rfl
  · cases os <;> simp [connect_and_run, hmax]

theorem reconnect_backoff_policy_witness :
    reconnectDelay 7 = min (2 ^ 7) 60 ∧
    (stepIter supAtOne IterOutcome.connectFail).1.slept
      = supAtOne.slept ++ [reconnectDelay supAtOne.reconnect_attempt] ∧
    (stepIter SupState.init IterOutcome.streamClosed).1.reconnect_attempt = 1 ∧
    (stepIter SupState.init IterOutcome.cableNotFound).1.reconnect_attempt = 0 ∧
    (stepIter SupState.init IterOutcome.streamClosed).1.streamingEntries
      = SupState.init.streamingEntries + 1 ∧
    connect_and_run supAtMax [IterOutcome.connectFail]
      = { supAtMax with terminal := true } :=
  reconnect_backoff_policy 7 supAtMax supAtOne SupState.init
    [IterOutcome.connectFail] IterOutcome.connectFail (by decide) (by decide)

/-- C6: when the authentication response is an explicit rejection (a
message with type "error"), the supervisor invalidates the stored
credential (`auth.clear_token()`), executes the fatal stop path exactly
once, and returns: the run is independent of any further environment
outcomes, no further reconnect attempt is scheduled, and the attempt
counter is not even incremented. -/
theorem auth_reject_fatal_no_retry (st : SupState) (rest : List IterOutcome)
    (h : st.reconnect_attempt < MAX_RECONNECT_ATTEMPTS) :
    connect_and_run st (IterOutcome.authReject :: rest)
      = (stepIter st IterOutcome.authReject).1 ∧
    (stepIter st IterOutcome.authReject).1.token = false ∧
    (stepIter st IterOutcome.authReject).1.authRejectStops
      = st.authRejectStops + 1 ∧
    (stepIter st IterOutcome.authReject).1.reconnect_attempt
      = st.reconnect_attempt ∧
    (stepIter st IterOutcome.authReject).1.terminal = st.terminal := by
  obtain ⟨hstop, htok, hcount, hatt, hterm⟩ := stepIter_authReject st
  refine ⟨?_, htok, hcount, hatt, hterm⟩
  simp [connect_and_run, Nat.not_le.mpr h, hstop]

theorem auth_reject_fatal_no_retry_witness :
    connect_and_run SupState.init (IterOutcome.authReject :: [IterOutcome.connectFail])
      = (stepIter SupState.init IterOutcome.authReject).1 ∧
    (stepIter SupState.init IterOutcome.authReject).1.token = false ∧
    (stepIter SupState.init IterOutcome.authReject).1.authRejectStops
      = SupState.init.authRejectStops + 1 ∧
    (stepIter SupState.init IterOutcome.authReject).1.reconnect_attempt
      = SupState.init.reconnect_attempt ∧
    (stepIter SupState.init IterOutcome.authReject).1.terminal
      = SupState.init.terminal :=
  auth_reject_fatal_no_retry SupState.init [IterOutcome.connectFail] (by decide)

/-- C7: the client waits at most `AUTH_TIMEOUT_SECONDS = 10` seconds for
the authentication response and reads exactly one frame from the inbound
stream (`authPhase` consumes precisely the head; an empty stream within
the timeout classifies as a timeout); an authentication timeout is
non-fatal: the stored credential is kept, the loop continues with the
attempt counter incremented, and the next iteration sleeps the backoff
delay of the incremented attempt index. -/
theorem auth_timeout_nonfatal_retry (frames : List Bool) (st : SupState)
    (o : IterOutcome) :
    AUTH_TIMEOUT_SECONDS = 10 ∧
    (authPhase frames).2 = frames.tail ∧
    authPhase [] = (AuthResult.timedOut, ([] : List Bool)) ∧
    (stepIter st IterOutcome.authTimeout).1.token = st.token ∧
    (stepIter st IterOutcome.authTimeout).1.reconnect_attempt
      = st.reconnect_attempt + 1 ∧
    (stepIter st IterOutcome.authTimeout).2 = true ∧
    (stepIter (stepIter st IterOutcome.authTimeout).1 o).1.slept
      = (stepIter st IterOutcome.authTimeout).1.slept
          ++ [reconnectDelay (st.reconnect_attempt + 1)] := by
  refine ⟨rfl, ?_, rfl, stepIter_authTimeout_token st,
    stepIter_authTimeout_attempt st, stepIter_authTimeout_continues st, ?_⟩
  · cases frames <;> rfl
  · rw [stepIter_slept_pos _ o (by rw [stepIter_authTimeout_attempt]; omega),
        stepIter_authTimeout_attempt]

/-- C8: during streaming, a failure of the write of an inbound binary
frame to the output device and a failure of the append of that frame to
the recording file are each only counted/logged; the iteration always
completes and the inbound loop keeps processing all subsequent frames,
whatever the per-frame failure flags are. -/
theorem inbound_write_failures_nonfatal {β : Type} (st : SinkState β)
    (frame : β) (w : WriteFlags) (rest msgs : List (β × WriteFlags)) :
    inboundLoop st ((frame, w) :: rest)
      = inboundLoop (handleBinaryFrame st frame w) rest ∧
    (inboundLoop st msgs).processed = st.processed + msgs.length ∧
    (handleBinaryFrame st frame w).processed = st.processed + 1 ∧
    (w.deviceWriteFails = true →
      (handleBinaryFrame st frame w).deviceErrors = st.deviceErrors + 1) ∧
    (w.recordWriteFails = true →
      (handleBinaryFrame st frame w).recordErrors = st.recordErrors + 1) := by
  refine ⟨rfl, inboundLoop_processed msgs st, ?_, ?_, ?_⟩
  · unfold handleBinaryFrame
    split_ifs <;> rfl
  · intro hd
    unfold handleBinaryFrame
    dsimp only
    split_ifs <;> simp_all
  · intro hr
    unfold handleBinaryFrame
    dsimp only
    split_ifs <;> simp_all

theorem inbound_write_failures_nonfatal_witness :
    (handleBinaryFrame (SinkState.init Nat) 0 ⟨true, true⟩).deviceErrors
      = (SinkState.init Nat).deviceErrors + 1 ∧
    (handleBinaryFrame (SinkState.init Nat) 0 ⟨true, true⟩).recordErrors
      = (SinkState.init Nat).recordErrors + 1 :=
  ⟨(inbound_write_failures_nonfatal (SinkState.init Nat) 0 ⟨true, true⟩ [] []).2.2.2.1 rfl,
   (inbound_write_failures_nonfatal (SinkState.init Nat) 0 ⟨true, true⟩ [] []).2.2.2.2 rfl⟩

/-- C9: on any poll in which the freshly enumerated device-name list
differs from the stored snapshot, `check_devices` replaces the snapshot
with the new list and invokes every registered callback exactly once for
that poll, in registration order — including the callbacks registered
after one that raises, since the exception is caught per callback. -/
theorem device_change_invokes_all_callbacks (m : AudioDeviceMonitor)
    (current : List String) (h : current ≠ m.last_devices) :
    (check_devices m current).1.last_devices = current ∧
    (check_devices m current).2 = m.callbacks.map DevCallback.id ∧
    (check_devices m current).1.callbacks = m.callbacks ∧
    (∀ c : DevCallback, c ∈ m.callbacks → c.id ∈ (check_devices m current).2) := by
  unfold check_devices
  rw [if_pos h]
  refine ⟨rfl, runCallbacks_eq_map m.callbacks, rfl, ?_⟩
  intro c hc
  rw [runCallbacks_eq_map]
  exact List.mem_map_of_mem DevCallback.id hc

theorem device_change_invokes_all_callbacks_witness :
    (check_devices monMicA ["Mic A", "Mic B"]).1.last_devices = ["Mic A", "Mic B"] ∧
    (check_devices monMicA ["Mic A", "Mic B"]).2
      = monMicA.callbacks.map DevCallback.id ∧
    (check_devices monMicA ["Mic A", "Mic B"]).1.callbacks = monMicA.callbacks ∧
    ({ id := 0, raises := true } : DevCallback).id
      ∈ (check_devices monMicA ["Mic A", "Mic B"]).2 :=
  ⟨(device_change_invokes_all_callbacks monMicA ["Mic A", "Mic B"] (by decide)).1,
   (device_change_invokes_all_callbacks monMicA ["Mic A", "Mic B"] (by decide)).2.1,
   (device_change_invokes_all_callbacks monMicA ["Mic A", "Mic B"] (by decide)).2.2.1,
   (device_change_invokes_all_callbacks monMicA ["Mic A", "Mic B"] (by decide)).2.2.2
     { id := 0, raises := true } (by decide)⟩
